import Mathlib

/-!
Shallow embedding of the worldmonitor ingestion-and-normalization core:
`src/services/boston-open-data.ts` (Boston ArcGIS datasets: paginated fetch,
schema normalization, provenance assembly) and the local-transit service
(MBTA multi-tier resolution, polyline decoding, transit provenance).

JavaScript is modelled as follows: loosely-typed values are `JsVal`
(string / finite number / boolean / null-or-undefined-as-missing), numbers
are exact rationals (`Rat`; the claims checked here do not depend on
binary floating-point rounding), property maps are ordered association
lists (JS object insertion order), network effects are explicit parameters
(a page server function, tier outcomes), and the engine-defined calendar
parser behind `new Date(<string>)` / `Date.parse` is an explicit oracle
parameter.  Fallible code returns `Except`/`Option`.
-/

namespace WorldMonitor

deriving instance DecidableEq for Except

/-- JavaScript runtime values as they appear in the loosely-typed property
maps handled by this code base (JSON-derived, so numbers are finite). -/
inductive JsVal where
  | str (s : String)
  | num (q : Rat)
  | boolean (b : Bool)
  | null
deriving Repr, DecidableEq

/-- Leading- and trailing-whitespace removal on the character list
(`String.prototype.trim`; ASCII whitespace covers every input met here). -/
def trimList (cs : List Char) : List Char :=
  ((cs.dropWhile Char.isWhitespace).reverse.dropWhile Char.isWhitespace).reverse

/-- Embeds `String.prototype.trim`. -/
def jsTrim (s : String) : String := ⟨trimList s.data⟩

/-- Embeds `String.prototype.toLowerCase` (per-character; the inputs here are
ASCII). -/
def lowerStr (s : String) : String := ⟨s.data.map Char.toLower⟩

/-- Whether the first list begins with the second. -/
def listHasPre : List Char → List Char → Bool
  | _, [] => true
  | [], _ :: _ => false
  | c :: cs, d :: ds => c == d && listHasPre cs ds

/-- Whether the first list contains the second as a contiguous run. -/
def listContainsSub : List Char → List Char → Bool
  | [], needle => needle.isEmpty
  | c :: cs, needle => listHasPre (c :: cs) needle || listContainsSub cs needle

/-- Split at every occurrence of one separator character
(`String.prototype.split` with a single-character separator). -/
def splitOnChar (sep : Char) : List Char → List (List Char)
  | [] => [[]]
  | c :: cs =>
    match splitOnChar sep cs with
    | [] => [[]]
    | g :: gs => if c = sep then [] :: g :: gs else (c :: g) :: gs

/-- Digit-list value; `none` when a non-digit appears.  An empty list gives
`some 0`, callers enforce non-emptiness where JS requires a digit. -/
def digitsVal (cs : List Char) : Option Nat :=
  cs.foldl
    (fun acc c =>
      acc.bind (fun n => if c.isDigit then some (n * 10 + (c.toNat - 48)) else none))
    (some 0)

/-- Unsigned decimal numeral (`"12"`, `"12.5"`, `".5"`, `"5."`). -/
def parseUnsigned (t : List Char) : Option Rat :=
  match splitOnChar '.' t with
  | [ip] =>
    if ip.length > 0 then (digitsVal ip).map (fun n => (n : Rat)) else none
  | [ip, fp] =>
    if ip.length > 0 ∨ fp.length > 0 then
      match digitsVal ip, digitsVal fp with
      | some i, some f => some ((i : Rat) + (f : Rat) / (10 : Rat) ^ fp.length)
      | _, _ => none
    else none
  | _ => none

/-- JS `Number(<string>)` on the string shapes this code meets: whitespace
is trimmed, the empty string converts to `0`, signed decimal numerals parse
exactly; anything else (including the exotic forms `Infinity`, hex and
exponent forms, which the call sites below treat identically to
non-finite values) yields `none`, the model of a non-finite result. -/
def jsNumber (s : String) : Option Rat :=
  match trimList s.data with
  | [] => some 0
  | '-' :: rest => (parseUnsigned rest).map (fun q => -q)
  | '+' :: rest => parseUnsigned rest
  | cs => parseUnsigned cs

/-- JS `Number(value)` on a runtime value (`Number(null) = 0`,
`Number(true) = 1`); `none` models a non-finite result. -/
def jsNumberOfVal : JsVal → Option Rat
  | .str s => jsNumber s
  | .num q => some q
  | .boolean b => some (if b then 1 else 0)
  | .null => some 0

/-- JS `String(value)`.  Integral numbers print as in JS; the non-integral
rational rendering is a deterministic stand-in (the claims below never
depend on the exact text of a non-integral number). -/
def jsToString : JsVal → String
  | .str s => s
  | .num q => if q.den = 1 then toString q.num else toString q
  | .boolean b => if b then "true" else "false"
  | .null => "null"

/-- JS `a || b` on strings (only `""` is falsy). -/
def jsOr (a b : String) : String := if a = "" then b else a

/-- Substring test (`String.prototype.includes` / a single-keyword regex
test). -/
def containsSubstr (hay needle : String) : Bool :=
  listContainsSub hay.data needle.data

/-- Gregorian civil date from days since 1970-01-01 (the standard
era-decomposition algorithm; all divisions act on non-negative operands
after the era adjustment). -/
def civilFromDays (z0 : Int) : Int × Int × Int :=
  let z := z0 + 719468
  let era := (if z ≥ 0 then z else z - 146096).tdiv 146097
  let doe := z - era * 146097
  let yoe := (doe - doe.tdiv 1460 + doe.tdiv 36524 - doe.tdiv 146096).tdiv 365
  let y := yoe + era * 400
  let doy := doe - (365 * yoe + yoe.tdiv 4 - yoe.tdiv 100)
  let mp := (5 * doy + 2).tdiv 153
  let d := doy - (153 * mp + 2).tdiv 5 + 1
  let m := if mp < 10 then mp + 3 else mp - 9
  (if m ≤ 2 then y + 1 else y, m, d)

/-- Left-pad a decimal numeral with zeros. -/
def pad (width : Nat) (n : Nat) : String :=
  let s := toString n
  String.mk (List.replicate (width - s.length) '0') ++ s

/-- Embeds `Date.prototype.toISOString` for a valid epoch-millisecond time value
(UTC; expanded-year form outside 0000..9999, as in ECMA-262). -/
def isoRender (ms : Int) : String :=
  let days := Int.fdiv ms 86400000
  let rem := (Int.emod ms 86400000).toNat
  let (y, m, d) := civilFromDays days
  let yearStr :=
    if 0 ≤ y ∧ y ≤ 9999 then pad 4 y.toNat
    else if y < 0 then "-" ++ pad 6 (-y).toNat
    else "+" ++ pad 6 y.toNat
  yearStr ++ "-" ++ pad 2 m.toNat ++ "-" ++ pad 2 d.toNat ++ "T" ++
    pad 2 (rem / 3600000) ++ ":" ++ pad 2 (rem % 3600000 / 60000) ++ ":" ++
    pad 2 (rem % 60000 / 1000) ++ "." ++ pad 3 (rem % 1000) ++ "Z"

/-- Render an epoch-millisecond value as ISO-8601 when it is inside the
ECMA-262 time range, `none` (an invalid date) otherwise. -/
def isoOfMs (ms : Int) : Option String :=
  if ms.natAbs ≤ 8640000000000000 then some (isoRender ms) else none

/-- Truncation toward zero (ECMA-262 `ToIntegerOrInfinity` on a finite
number), computed directly on the reduced numerator and denominator. -/
def ratTrunc (q : Rat) : Int := Int.tdiv q.num q.den

/-- Whether `|q * scale| ≤ bound` (as `|num * scale| ≤ bound * den`). -/
def ratScaledAbsLe (q : Rat) (scale bound : Nat) : Bool :=
  (q.num * scale).natAbs ≤ bound * q.den

/-- Embeds `new Date(<number>).getTime()` after multiplying the number by
`scale`: `TimeClip` — out-of-range times become invalid (`none`), in-range
times are truncated toward zero. -/
def jsDateOfScaled (q : Rat) (scale : Nat) : Option Int :=
  if ratScaledAbsLe q scale 8640000000000000 then some (Int.tdiv (q.num * scale) q.den)
  else none

/-- Embeds `new Date(<number>).getTime()`. -/
def jsDateOfNumber (q : Rat) : Option Int := jsDateOfScaled q 1

/-- Whether `q < n` (as `num < n * den`). -/
def ratLtNat (q : Rat) (n : Nat) : Bool := q.num < n * q.den

/-- Exact-key property access, `undefined` as `none` (first binding wins,
matching unique JS object keys). -/
def jsGet (props : List (String × JsVal)) (key : String) : Option JsVal :=
  props.lookup key

/-- Case-insensitive fallback lookup:
`Object.keys(props).find(k => k.toLowerCase() === key.toLowerCase())`
followed by access, preserving key insertion order. -/
def jsGetCI (props : List (String × JsVal)) (key : String) : Option JsVal :=
  (props.find? (fun kv => lowerStr kv.1 == lowerStr key)).map (fun kv => kv.2)

/-- Embeds `pickString` (boston-open-data.ts:151): ordered candidate keys, exact
then case-insensitive; first non-blank string (trimmed) or number
(stringified) wins, else `""`. -/
def pickString (props : List (String × JsVal)) : List String → String
  | [] => ""
  | key :: rest =>
    let direct : Option String :=
      match jsGet props key with
      | some (.str s) => if jsTrim s ≠ "" then some (jsTrim s) else none
      | _ => none
    match direct with
    | some s => s
    | none =>
      match jsGetCI props key with
      | none => pickString props rest
      | some (.str s) => if jsTrim s ≠ "" then jsTrim s else pickString props rest
      | some (.num q) => jsToString (.num q)
      | some _ => pickString props rest

/-- Embeds `pickDateString` (boston-open-data.ts:165).  `parse` is the
engine-defined calendar parser behind `new Date(<string>)` (`some ms` for a
valid date with time value `ms`, `none` for an invalid date).  A numeric
value is passed to `new Date` as epoch milliseconds unchanged; an
unparseable non-blank string is passed through verbatim. -/
def pickDateString (parse : String → Option Int) (props : List (String × JsVal)) :
    List String → Option String
  | [] => none
  | key :: rest =>
    let direct : Option JsVal :=
      match jsGet props key with
      | some .null => jsGetCI props key
      | some v => some v
      | none => jsGetCI props key
    match direct with
    | some (.num q) =>
      match jsDateOfNumber q with
      | some ms => some (isoRender ms)
      | none => pickDateString parse props rest
    | some (.str s) =>
      if jsTrim s ≠ "" then
        match parse s with
        | some ms => some ((isoOfMs ms).getD s)
        | none => some s
      else pickDateString parse props rest
    | _ => pickDateString parse props rest

/-- GeoJSON geometry as used by `getFeatureCoordinates`: a point carries
its raw coordinate array; every non-point geometry behaves uniformly. -/
inductive GeoGeometry where
  | point (coordinates : List JsVal)
  | other
deriving Repr, DecidableEq

/-- GeoJSON feature (nullable geometry, nullable property map). -/
structure GeoFeature where
  geometry : Option GeoGeometry
  properties : Option (List (String × JsVal))
deriving Repr, DecidableEq

/-- Embeds `getFeatureCoordinates` (boston-open-data.ts:185) — `(lat, lon)`, with
`none` for `null`. -/
def getFeatureCoordinates (f : GeoFeature) : Option Rat × Option Rat :=
  match f.geometry with
  | none => (none, none)
  | some g =>
    let pointHit : Option (Rat × Rat) :=
      match g with
      | .point coords =>
        if coords.length ≥ 2 then
          match jsNumberOfVal (coords.getD 1 .null), jsNumberOfVal (coords.getD 0 .null) with
          | some lat, some lon => some (lat, lon)
          | _, _ => none
        else none
      | .other => none
    match pointHit with
    | some lalo => (some lalo.1, some lalo.2)
    | none =>
      let props := f.properties.getD []
      (jsNumber (pickString props ["latitude", "lat", "y", "LATITUDE"]),
       jsNumber (pickString props ["longitude", "lon", "lng", "x", "LONGITUDE"]))

/-- Embeds `isLikelyFireIncident` (boston-open-data.ts:204): keyword test over a
concatenation of descriptive fields. -/
def isLikelyFireIncident (properties : List (String × JsVal)) : Bool :=
  let haystack :=
    lowerStr (String.intercalate " "
      [pickString properties ["offense_description", "OFFENSE_DESCRIPTION"],
       pickString properties ["nature", "NATURE"],
       pickString properties ["incident_type_description", "INCIDENT_TYPE_DESCRIPTION"],
       pickString properties ["incident_type", "INCIDENT_TYPE"],
       pickString properties ["department", "DEPARTMENT"],
       pickString properties ["agency", "AGENCY"]])
  ["fire", "alarm", "smoke", "burn", "hazmat", "rescue"].any
    (fun kw => containsSubstr haystack kw)

/-- Boston incident dataset tag. -/
inductive DatasetTag where
  | crime
  | fire
deriving Repr, DecidableEq

/-- The tag's JS string form. -/
def DatasetTag.toName : DatasetTag → String
  | .crime => "crime"
  | .fire => "fire"

/-- Normalized Boston incident record (`BostonIncident`). -/
structure BostonIncident where
  id : String
  dataset : DatasetTag
  incidentNumber : String
  typeCode : String
  sourceCategory : String
  date : Option String
  dateTimeReported : Option String
  description : String
  district : String
  incidentType : String
  address : String
  lat : Option Rat
  lon : Option Rat
  raw : List (String × JsVal)
deriving Repr, DecidableEq

/-- Embeds `normalizeIncidentFeature` (boston-open-data.ts:219). -/
def normalizeIncidentFeature (parse : String → Option Int) (feature : GeoFeature)
    (datasetTag : DatasetTag) : BostonIncident :=
  let properties := feature.properties.getD []
  let lalo := getFeatureCoordinates feature
  let date := pickDateString parse properties
    ["occurred_on_date", "incident_date", "dispatch_date", "fromdate", "open_dt",
     "date", "offense_date"]
  let incidentType := pickString properties
    ["incident_type_description", "incident_type", "offense_code_group",
     "offense_code_name", "nature", "service"]
  let description := pickString properties
    ["offense_description", "offense_code_name", "description", "nature",
     "comments", "incident_type_description"]
  let incidentNumber := pickString properties
    ["incident_number", "INCIDENT_NUMBER", "incidentnum", "INCIDENTNUM",
     "case_number", "CASE_NUMBER", "objectid", "OBJECTID"]
  let typeCode := pickString properties
    ["offense_code", "OFFENSE_CODE", "incident_type", "INCIDENT_TYPE",
     "nature_code", "NATURE_CODE"]
  let dateTimeReported := pickDateString parse properties
    ["occurred_on_date", "incident_date", "dispatch_date", "report_date",
     "open_dt", "date"]
  let district := jsOr (pickString properties
    ["district", "police_district", "reporting_area", "precinct"]) "Unknown"
  let address := jsOr (pickString properties
    ["street", "streetname", "location", "address"]) "Unknown location"
  let objectId := pickString properties
    ["objectid", "OBJECTID", "incident_number", "INCIDENT_NUMBER"]
  let id := jsOr incidentNumber (jsOr objectId
    (datasetTag.toName ++ "-" ++ address ++ "-" ++ date.getD "no-date" ++ "-" ++
      jsOr typeCode "na"))
  { id := id
    dataset := datasetTag
    incidentNumber := jsOr incidentNumber (jsOr objectId "N/A")
    typeCode := jsOr typeCode "N/A"
    sourceCategory := jsOr incidentType "Uncategorized"
    date := date
    dateTimeReported := dateTimeReported
    description := jsOr description (jsOr incidentType "No description")
    district := district
    incidentType := jsOr incidentType "Unknown"
    address := address
    lat := lalo.1
    lon := lalo.2
    raw := properties }

/-- Embeds `normalizeIncidentFeatures` (boston-open-data.ts:303): fire datasets
additionally pass through the fire-keyword heuristic filter. -/
def normalizeIncidentFeatures (parse : String → Option Int) (features : List GeoFeature)
    (datasetTag : DatasetTag) : List BostonIncident :=
  let normalized := features.map (fun f => normalizeIncidentFeature parse f datasetTag)
  match datasetTag with
  | .fire => normalized.filter (fun incident => isLikelyFireIncident incident.raw)
  | .crime => normalized

/-- Boston logical dataset ids. -/
inductive BostonDatasetId where
  | crimeIncidents
  | fireIncidents
  | policeDistricts
  | fireHydrants
  | fireDepartments
  | communityCenters
deriving Repr, DecidableEq

/-- The dataset id's JS string form (used in cache keys). -/
def BostonDatasetId.toName : BostonDatasetId → String
  | .crimeIncidents => "crimeIncidents"
  | .fireIncidents => "fireIncidents"
  | .policeDistricts => "policeDistricts"
  | .fireHydrants => "fireHydrants"
  | .fireDepartments => "fireDepartments"
  | .communityCenters => "communityCenters"

/-- Fetch mode of an ArcGIS dataset config. -/
inductive ArcMode where
  | incident
  | layer
  | stub
deriving Repr, DecidableEq

/-- Embeds `ArcGisDatasetConfig` (boston-open-data.ts:50); optional fields use
`none` for absent. -/
structure ArcGisDatasetConfig where
  id : BostonDatasetId
  sourceUrl : String
  mode : ArcMode
  queryParams : List (String × JsVal) := []
  pageSize : Option Nat := none
  maxPages : Option Nat := none
  maxRecords : Option Nat := none
  datasetTag : Option DatasetTag := none
  warning : Option String := none
deriving Repr, DecidableEq

/-- JS object spread `{...base, ...upd}`: keys of `base` in order with
overridden values, then the new keys of `upd` in order. -/
def objMerge (base upd : List (String × JsVal)) : List (String × JsVal) :=
  base.map (fun kv => (kv.1, (upd.lookup kv.1).getD kv.2)) ++
    upd.filter (fun kv => (base.lookup kv.1).isNone)

/-- The shared ArcGIS query-parameter block repeated in each config. -/
def standardArcParams : List (String × JsVal) :=
  [("where", .str "1=1"), ("outFields", .str "*"),
   ("returnGeometry", .boolean true), ("outSR", .num 4326)]

/-- The `DATASETS` table (boston-open-data.ts:65). -/
def DATASETS : BostonDatasetId → ArcGisDatasetConfig
  | .crimeIncidents =>
    { id := .crimeIncidents
      sourceUrl := "https://services.arcgis.com/sFnw0xNflSi8J0uh/ArcGIS/rest/services/Boston_Incidents_Public_v2_view/FeatureServer/0/query"
      mode := .incident
      datasetTag := some .crime
      pageSize := some 500
      maxPages := some 8
      maxRecords := some 4000
      queryParams := standardArcParams ++
        [("orderByFields", .str "occurred_on_date DESC, objectid DESC")] }
  | .fireIncidents =>
    { id := .fireIncidents
      sourceUrl := "https://services.arcgis.com/sFnw0xNflSi8J0uh/ArcGIS/rest/services/Boston_Incidents_View/FeatureServer/0/query"
      mode := .incident
      datasetTag := some .fire
      pageSize := some 500
      maxPages := some 8
      maxRecords := some 4000
      queryParams := standardArcParams ++
        [("orderByFields", .str "incident_date DESC, objectid DESC")] }
  | .policeDistricts =>
    { id := .policeDistricts
      sourceUrl := "https://services.arcgis.com/sFnw0xNflSi8J0uh/ArcGIS/rest/services/Police_Districts/FeatureServer/0/query"
      mode := .layer
      pageSize := some 500
      queryParams := standardArcParams }
  | .fireHydrants =>
    { id := .fireHydrants
      sourceUrl := "https://data.boston.gov/"
      mode := .stub
      warning := some "Stable public hydrant endpoint not resolved yet. Add Analyze Boston or BostonMaps FeatureServer URL in src/services/boston-open-data.ts (fireHydrants config)." }
  | .fireDepartments =>
    { id := .fireDepartments
      sourceUrl := "https://services.arcgis.com/sFnw0xNflSi8J0uh/ArcGIS/rest/services/BFD_Firehouse/FeatureServer/0/query"
      mode := .layer
      pageSize := some 500
      queryParams := standardArcParams }
  | .communityCenters =>
    { id := .communityCenters
      sourceUrl := "https://services.arcgis.com/sFnw0xNflSi8J0uh/ArcGIS/rest/services/Community_Centers/FeatureServer/0/query"
      mode := .layer
      pageSize := some 500
      queryParams := standardArcParams }

/-- One successfully parsed page returned by the ArcGIS feature endpoint
(`fetchArcGisPage`'s result). -/
structure ArcPage where
  features : List GeoFeature
  exceededTransferLimit : Bool
deriving Repr, DecidableEq

/-- Warning emitted when the count probe yields no usable total. -/
def countWarnMsg : String :=
  "Could not retrieve total count from ArcGIS service (using page-length termination)."

/-- Warning emitted when the record cap stops the fetch. -/
def boundedMsg (maxRecords : Nat) : String :=
  "Record fetch bounded at " ++ toString maxRecords ++
    " records for responsive local usage."

/-- Warning emitted when the page guard is exhausted. -/
def cappedMsg (maxPages : Nat) : String :=
  "Pagination capped at " ++ toString maxPages ++ " pages to protect local runtime."

/-- One-time warning noting automatic continuation past the transfer
limit. -/
def exceededMsg : String :=
  "ArcGIS reported exceededTransferLimit during paging; additional pages were requested automatically."

/-- Warning appended when the fire heuristic filters away every incident. -/
def fireZeroMsg : String :=
  "No fire incidents matched heuristic filters. Review fire endpoint fields in src/services/boston-open-data.ts."

/-- Embeds `page.features.slice(0, Math.max(0, maxRecords - len))`, with an
infinite cap (`none`) taking everything. -/
def takeRemaining (maxRecords : Option Nat) (accLen : Nat) (fs : List GeoFeature) :
    List GeoFeature :=
  match maxRecords with
  | none => fs
  | some m => fs.take (m - accLen)

/-- Embeds `allFeatures.length >= maxRecords` (false against the infinite cap). -/
def capReached (maxRecords : Option Nat) (len : Nat) : Bool :=
  match maxRecords with
  | none => false
  | some m => len ≥ m

/-- Embeds `count != null && allFeatures.length >= count`. -/
def countReached (count : Option Nat) (len : Nat) : Bool :=
  match count with
  | none => false
  | some c => len ≥ c

/-- Final state of the paginated `while` loop of
`fetchArcGisFeatureCollection`: accumulated features, warning list, the
sticky transfer-limit flag, and `pageGuard` (pages actually fetched). -/
structure PagedRun where
  features : List GeoFeature
  warnings : List String
  sawExceededTransferLimit : Bool
  pageGuard : Nat
deriving Repr, DecidableEq

/-- The paginated `while` loop (boston-open-data.ts:392).  `server k` is the
outcome of the page request at offset `k * pageSize` (the loop requests
strictly increasing offsets, the `k`-th request at offset `k * pageSize`);
a thrown HTTP failure is `.error`.  `fuel` is the remaining page budget
(`maxPages - reqIx` at every call), so running out of fuel is exactly the
`pageGuard < maxPages` loop-condition failing with `hasMore` still true.
On the cap branch `maxRecords` is necessarily `some`, so `getD 0` in the
warning text reproduces the JS interpolation faithfully. -/
def runPages (server : Nat → Except String ArcPage) (pageSize : Nat)
    (count : Option Nat) (maxRecords : Option Nat) :
    Nat → Nat → List GeoFeature → Bool → List String → Except String PagedRun
  | 0, reqIx, acc, sawExc, warn => .ok ⟨acc, warn, sawExc, reqIx⟩
  | fuel + 1, reqIx, acc, sawExc, warn =>
    match server reqIx with
    | .error e => .error e
    | .ok page =>
      let featureCount := page.features.length
      let acc2 := acc ++ takeRemaining maxRecords acc.length page.features
      let sawExc2 := sawExc || page.exceededTransferLimit
      if capReached maxRecords acc2.length then
        .ok ⟨acc2, warn ++ [boundedMsg (maxRecords.getD 0)], sawExc2, reqIx + 1⟩
      else if featureCount < pageSize ∧ ¬ page.exceededTransferLimit then
        .ok ⟨acc2, warn, sawExc2, reqIx + 1⟩
      else if countReached count acc2.length then
        .ok ⟨acc2, warn, sawExc2, reqIx + 1⟩
      else
        runPages server pageSize count maxRecords fuel (reqIx + 1) acc2 sawExc2 warn

/-- Warnings in place before the loop: the count-probe warning when the
count request failed or had no usable total (`count = none`). -/
def initialWarnings (count : Option Nat) : List String :=
  if count = none then [countWarnMsg] else []

/-- The paginated loop at its entry state (offset 0, nothing accumulated,
full page budget). -/
def runPagesInit (config : ArcGisDatasetConfig) (count : Option Nat)
    (server : Nat → Except String ArcPage) : Except String PagedRun :=
  runPages server (config.pageSize.getD 1000) count config.maxRecords
    (config.maxPages.getD 100) 0 [] false (initialWarnings count)

/-- Result of `fetchArcGisFeatureCollection`: the feature collection's
feature list, warnings, and the echoed query parameters. -/
structure ArcFetchResult where
  features : List GeoFeature
  warnings : List String
  queryParams : List (String × JsVal)
deriving Repr, DecidableEq

/-- Embeds `fetchArcGisFeatureCollection` (boston-open-data.ts:368).  `count` is
the count-probe outcome (`none` models both a failed probe and a payload
without a numeric count); a page-request failure aborts the whole fetch. -/
def fetchArcGisFeatureCollection (config : ArcGisDatasetConfig) (count : Option Nat)
    (server : Nat → Except String ArcPage) : Except String ArcFetchResult :=
  let pageSize := config.pageSize.getD 1000
  let maxPages := config.maxPages.getD 100
  match runPagesInit config count server with
  | .error e => .error e
  | .ok run =>
    let w1 := if run.pageGuard ≥ maxPages then run.warnings ++ [cappedMsg maxPages]
      else run.warnings
    let w2 := if run.sawExceededTransferLimit then w1 ++ [exceededMsg] else w1
    .ok
      { features := run.features
        warnings := w2
        queryParams := objMerge (objMerge standardArcParams config.queryParams)
          [("pageSize", .num pageSize)] }

/-- Boston provenance envelope. -/
structure BostonProvenance where
  datasetId : BostonDatasetId
  sourceUrl : String
  fetchedAt : String
  recordCount : Nat
  queryParams : List (String × JsVal)
  warnings : List String
deriving Repr, DecidableEq

/-- The records carried by a Boston payload: an incident list
(incident-mode datasets) or a feature collection (layer/stub datasets). -/
inductive BostonRecords where
  | incidents (list : List BostonIncident)
  | layer (features : List GeoFeature)
deriving Repr, DecidableEq

/-- Embeds `BostonDatasetPayload`. -/
structure BostonDatasetPayload where
  records : BostonRecords
  provenance : BostonProvenance
deriving Repr, DecidableEq

/-- Modelled from the spec: the persistent Cache Façade
(`./persistent-cache`, whose source is not under src/) — a key-value store
with `write(key, payload)` replacing the slot wholesale
(most-recent-first association list, reads take the first binding). -/
def BostonCache : Type := List (String × BostonDatasetPayload)

/-- Modelled from the spec: `setPersistentCache` writes one key. -/
def setPersistentCache (key : String) (payload : BostonDatasetPayload)
    (cache : BostonCache) : BostonCache :=
  (key, payload) :: cache

/-- Embeds `cacheKey` (boston-open-data.ts:321). -/
def cacheKey (datasetId : BostonDatasetId) : String :=
  "boston-open-data" ++ ":" ++ datasetId.toName

/-- Embeds `refreshBostonDataset` (boston-open-data.ts:434) with the ambient
effects explicit: `parse` the calendar parser, `fetchedAt` the refresh
timestamp, `count`/`server` the upstream responses, and the cache threaded
as state.  The result pairs the outcome (the thrown error propagates as
`.error`) with the possibly updated cache. -/
def refreshBostonDataset (parse : String → Option Int) (datasetId : BostonDatasetId)
    (fetchedAt : String) (count : Option Nat) (server : Nat → Except String ArcPage)
    (cache : BostonCache) : Except String BostonDatasetPayload × BostonCache :=
  let config := DATASETS datasetId
  match config.mode with
  | .stub =>
    let payload : BostonDatasetPayload :=
      { records := .layer []
        provenance :=
          { datasetId := datasetId
            sourceUrl := config.sourceUrl
            fetchedAt := fetchedAt
            recordCount := 0
            queryParams := []
            warnings :=
              match config.warning with
              | some w => [w]
              | none => ["Dataset configured as stub."] } }
    (.ok payload, setPersistentCache (cacheKey datasetId) payload cache)
  | .incident =>
    match fetchArcGisFeatureCollection config count server with
    | .error e => (.error e, cache)
    | .ok res =>
      let incidents := normalizeIncidentFeatures parse res.features
        (config.datasetTag.getD .crime)
      let warnings :=
        if config.datasetTag = some DatasetTag.fire ∧ incidents.length = 0 then
          res.warnings ++ [fireZeroMsg]
        else res.warnings
      let payload : BostonDatasetPayload :=
        { records := .incidents incidents
          provenance :=
            { datasetId := datasetId
              sourceUrl := config.sourceUrl
              fetchedAt := fetchedAt
              recordCount := incidents.length
              queryParams := res.queryParams
              warnings := warnings } }
      (.ok payload, setPersistentCache (cacheKey datasetId) payload cache)
  | .layer =>
    match fetchArcGisFeatureCollection config count server with
    | .error e => (.error e, cache)
    | .ok res =>
      let payload : BostonDatasetPayload :=
        { records := .layer res.features
          provenance :=
            { datasetId := datasetId
              sourceUrl := config.sourceUrl
              fetchedAt := fetchedAt
              recordCount := res.features.length
              queryParams := res.queryParams
              warnings := res.warnings } }
      (.ok payload, setPersistentCache (cacheKey datasetId) payload cache)

/-- Local-transit mode tags (`LocalTransitMode`). -/
inductive TransitMode where
  | subway
  | bus
  | commuter_rail
  | ferry
  | amtrak
deriving Repr, DecidableEq

/-- Alert severity buckets (`LocalTransitAlertSeverity`). -/
inductive AlertSeverity where
  | info
  | minor
  | major
  | severe
deriving Repr, DecidableEq

/-- Alert source tag. -/
inductive AlertSource where
  | mbta
  | amtrak
deriving Repr, DecidableEq

/-- Embeds `LocalTransitVehicle` (vehicle records never carry the amtrak mode;
the type keeps the full tag set for uniformity). -/
structure LocalTransitVehicle where
  id : String
  mode : TransitMode
  routeId : String
  routeLabel : String
  status : String
  lat : Rat
  lon : Rat
  bearing : Option Rat
  updatedAt : Option String
deriving Repr, DecidableEq

/-- Embeds `LocalTransitLine`. -/
structure LocalTransitLine where
  id : String
  mode : TransitMode
  routeId : String
  routeLabel : String
  color : String
  textColor : String
  path : List (Rat × Rat)
  source : String
deriving Repr, DecidableEq

/-- Embeds `LocalTransitAlert`. -/
structure LocalTransitAlert where
  id : String
  source : AlertSource
  mode : TransitMode
  title : String
  description : String
  severity : AlertSeverity
  updatedAt : Option String
  url : String
deriving Repr, DecidableEq

/-- Embeds `LocalTransitSummary`. -/
structure LocalTransitSummary where
  mode : TransitMode
  label : String
  vehicleCount : Nat
  alertCount : Nat
  status : String
deriving Repr, DecidableEq

/-- Embeds `LocalTransitProvenance`. -/
structure LocalTransitProvenance where
  datasetId : String
  sourceUrl : String
  fetchedAt : String
  recordCount : Nat
  queryParams : List (String × JsVal)
  warnings : List String
deriving Repr, DecidableEq

/-- Embeds `LocalTransitPayload`. -/
structure LocalTransitPayload where
  vehicles : List LocalTransitVehicle
  lines : List LocalTransitLine
  alerts : List LocalTransitAlert
  summaries : List LocalTransitSummary
  provenance : LocalTransitProvenance
deriving Repr, DecidableEq

/-- Embeds `toIsoDate` (local-transit source, line 133): numeric epochs are
scaled by magnitude (below `10^12` they are treated as seconds and
multiplied by 1000), everything else is stringified, trimmed and handed to
the calendar parser `parse` (the oracle for `new Date(<string>)`);
unparseable or out-of-range dates give `null`.  The input is the raw JS
value, `none` standing for `undefined`. -/
def toIsoDate (parse : String → Option Int) : Option JsVal → Option String
  | none => none
  | some .null => none
  | some (.num q) =>
    if ratLtNat q 1000000000000 then (jsDateOfScaled q 1000).map isoRender
    else (jsDateOfNumber q).map isoRender
  | some v =>
    let text := jsTrim (jsToString v)
    if text = "" then none
    else (parse text).bind isoOfMs

/-- One 5-bit varint group of the polyline decoder, with JavaScript 32-bit
bitwise semantics: `byte = charCodeAt(i) - 63`, `result |= (byte & 0x1f)
<< shift` wraps to 32 bits and masks the shift count, and the group ends on
`byte < 0x20` (which any character below `'?'`, hence any malformed input,
satisfies).  `none` means the string ended mid-group. -/
def readGroup : List Char → Nat → Nat → Option (Nat × List Char)
  | [], _, _ => none
  | c :: cs, shift, result =>
    let byteI : Int := (c.toNat : Int) - 63
    let masked : Nat := (byteI.emod 32).toNat
    let result2 := result ||| (masked <<< (shift % 32)) % 2 ^ 32
    if byteI ≥ 32 then readGroup cs (shift + 5) result2 else some (result2, cs)

/-- Zigzag step `(result & 1) ? ~(result >> 1) : (result >> 1)` on the
32-bit accumulator (`>>` is the signed shift, `~x = -x - 1`). -/
def zigzagDecode (r : Nat) : Int :=
  let signed : Int := if r < 2 ^ 31 then (r : Int) else (r : Int) - 2 ^ 32
  let shifted := Int.fdiv signed 2
  if r % 2 = 1 then -shifted - 1 else shifted

/-- The decoder's `while` loop: one latitude group, one longitude group,
push `[lon / 1e5, lat / 1e5]`; running out of characters mid-group returns
the coordinates decoded so far. -/
def decodeLoop (cs : List Char) (lat lon : Int) : List (Rat × Rat) :=
  match h1 : readGroup cs 0 0 with
  | none => []
  | some (r1, cs1) =>
    let lat2 := lat + zigzagDecode r1
    match h2 : readGroup cs1 0 0 with
    | none => []
    | some (r2, cs2) =>
      let lon2 := lon + zigzagDecode r2
      ((lon2 : Rat) / 100000, (lat2 : Rat) / 100000) :: decodeLoop cs2 lat2 lon2
termination_by cs.length
decreasing_by
  have key : ∀ (l : List Char) (sh r v : Nat) (rest : List Char),
      readGroup l sh r = some (v, rest) → rest.length < l.length := by
    intro l
    induction l with
    | nil => intro sh r v rest h; simp [readGroup] at h
    | cons c l ih =>
      intro sh r v rest h
      simp only [readGroup] at h
      split at h
      · exact Nat.lt_trans (ih _ _ _ _ h) (Nat.lt_succ_self _)
      · simp only [Option.some.injEq, Prod.mk.injEq] at h
        obtain ⟨-, h⟩ := h
        simp [← h]
  exact Nat.lt_trans (key _ _ _ _ _ h2) (key _ _ _ _ _ h1)

/-- Embeds `decodePolyline` (local-transit source, line 295). -/
def decodePolyline (s : String) : List (Rat × Rat) :=
  if s = "" then [] else decodeLoop s.data 0 0

/-- Zero-result note of one MBTA vehicle tier. -/
def vehicleEmptyNote (label : String) : String :=
  "MBTA " ++ label ++ " vehicle query returned zero Boston-area vehicles."

/-- Failure note of one MBTA vehicle tier. -/
def vehicleFailNote (label msg : String) : String :=
  "MBTA " ++ label ++ " vehicle query failed (" ++ msg ++ ")."

/-- Zero-result note of the GTFS vehicle fallback tier. -/
def gtfsVehicleEmptyNote : String :=
  "MBTA GTFS vehicle fallback returned zero Boston-area vehicles."

/-- Failure note of the GTFS vehicle fallback tier. -/
def gtfsVehicleFailNote (msg : String) : String :=
  "MBTA GTFS vehicle fallback failed (" ++ msg ++ ")."

/-- Zero-result note of one MBTA alert tier. -/
def alertEmptyNote (label : String) : String :=
  "MBTA " ++ label ++ " alert query returned zero alerts."

/-- Failure note of one MBTA alert tier. -/
def alertFailNote (label msg : String) : String :=
  "MBTA " ++ label ++ " alert query failed (" ++ msg ++ ")."

/-- Zero-result note of the GTFS alert fallback tier. -/
def gtfsAlertEmptyNote : String :=
  "MBTA GTFS alert fallback returned zero alerts."

/-- Failure note of the GTFS alert fallback tier. -/
def gtfsAlertFailNote (msg : String) : String :=
  "MBTA GTFS alert fallback failed (" ++ msg ++ ")."

/-- Embeds `fetchMbtaVehicles` (local-transit source, line 583).  Each argument is
the outcome of one tier's fetch-normalize-filter-sort pipeline (`.error`
for a thrown request, `.ok` with the Boston-filtered sorted vehicles
otherwise); the pipeline bodies live upstream of the control flow modelled
here.  The result extends the JS return value with the list of tier
labels actually awaited, in order, recording which tiers were invoked. -/
def fetchMbtaVehicles (primary fallback gtfs : Except String (List LocalTransitVehicle))
    (warnings : List String) :
    List LocalTransitVehicle × List String × List String :=
  let finish := fun (notes : List String) =>
    (([] : List LocalTransitVehicle),
      if notes.length > 0 then warnings ++ [String.intercalate " | " notes] else warnings,
      ["filtered", "fallback", "gtfs"])
  let stepGtfs := fun (notes : List String) =>
    match gtfs with
    | .ok vs =>
      if vs.length > 0 then (vs, warnings, ["filtered", "fallback", "gtfs"])
      else finish (notes ++ [gtfsVehicleEmptyNote])
    | .error e => finish (notes ++ [gtfsVehicleFailNote e])
  let stepFallback := fun (notes : List String) =>
    match fallback with
    | .ok vs =>
      if vs.length > 0 then (vs, warnings, ["filtered", "fallback"])
      else stepGtfs (notes ++ [vehicleEmptyNote "fallback"])
    | .error e => stepGtfs (notes ++ [vehicleFailNote "fallback" e])
  match primary with
  | .ok vs =>
    if vs.length > 0 then (vs, warnings, ["filtered"])
    else stepFallback [vehicleEmptyNote "filtered"]
  | .error e => stepFallback [vehicleFailNote "filtered" e]

/-- Embeds `fetchMbtaAlerts` (local-transit source, line 709), same shape as
`fetchMbtaVehicles`. -/
def fetchMbtaAlerts (primary fallback gtfs : Except String (List LocalTransitAlert))
    (warnings : List String) :
    List LocalTransitAlert × List String × List String :=
  let finish := fun (notes : List String) =>
    (([] : List LocalTransitAlert),
      if notes.length > 0 then warnings ++ [String.intercalate " | " notes] else warnings,
      ["filtered", "fallback", "gtfs"])
  let stepGtfs := fun (notes : List String) =>
    match gtfs with
    | .ok as2 =>
      if as2.length > 0 then (as2, warnings, ["filtered", "fallback", "gtfs"])
      else finish (notes ++ [gtfsAlertEmptyNote])
    | .error e => finish (notes ++ [gtfsAlertFailNote e])
  let stepFallback := fun (notes : List String) =>
    match fallback with
    | .ok as2 =>
      if as2.length > 0 then (as2, warnings, ["filtered", "fallback"])
      else stepGtfs (notes ++ [alertEmptyNote "fallback"])
    | .error e => stepGtfs (notes ++ [alertFailNote "fallback" e])
  match primary with
  | .ok as2 =>
    if as2.length > 0 then (as2, warnings, ["filtered"])
    else stepFallback [alertEmptyNote "filtered"]
  | .error e => stepFallback [alertFailNote "filtered" e]

/-- The Amtrak keyword vocabulary (`AMTRAK_KEYWORDS`). -/
def amtrakKeywords : List String :=
  ["boston", "south station", "back bay", "route 128", "westwood", "downeaster",
   "north station", "acela", "northeast regional", "lake shore limited"]

/-- Embeds `isBostonRelated` (local-transit source, line 255). -/
def isBostonRelated (text : String) : Bool :=
  amtrakKeywords.any (fun keyword => containsSubstr (lowerStr text) keyword)

/-- Outcome of fetching one Amtrak feed candidate through the proxy:
non-2xx status, thrown request, or a body whose `parseAmtrakFeed` result
(the DOM/XML layer upstream of this control flow) is the given alert list
(empty for an unparseable or item-less feed). -/
inductive AmtrakFetchOutcome where
  | httpFail (status : Nat)
  | threw (msg : String)
  | fetched (parsedAlerts : List LocalTransitAlert)
deriving Repr, DecidableEq

/-- Warning when a feed is reachable but nothing matches the keywords. -/
def amtrakReachableMsg : String :=
  "Amtrak feed reachable but no Boston-area alerts matched filters."

/-- Aggregated warning when every candidate failed. -/
def amtrakUnavailableMsg (joined : String) : String :=
  "Amtrak alerts unavailable (" ++ joined ++ ")."

/-- The candidate loop of `fetchAmtrakAlerts`: `allJoined` is the
pre-joined full candidate list used by the exhausted-everything return.
Returns (alerts, sourceUrl, warnings, attempted candidate urls). -/
def amtrakLoop (allJoined : String) :
    List (String × AmtrakFetchOutcome) → List String → List String → List String →
    List LocalTransitAlert × String × List String × List String
  | [], warnings, failures, invoked =>
    let warnings2 :=
      if failures.length > 0 then
        warnings ++ [amtrakUnavailableMsg (String.intercalate " | " (failures.take 2))]
      else warnings
    ([], allJoined, warnings2, invoked)
  | (candidate, outcome) :: rest, warnings, failures, invoked =>
    let invoked2 := invoked ++ [candidate]
    match outcome with
    | .httpFail status =>
      amtrakLoop allJoined rest warnings
        (failures ++ [candidate ++ " -> HTTP " ++ toString status]) invoked2
    | .threw msg =>
      amtrakLoop allJoined rest warnings (failures ++ [candidate ++ " -> " ++ msg])
        invoked2
    | .fetched all =>
      if all.length = 0 then
        amtrakLoop allJoined rest warnings
          (failures ++ [candidate ++ " -> empty/unparseable feed"]) invoked2
      else
        let bostonOnly := all.filter
          (fun item => isBostonRelated (item.title ++ " " ++ item.description))
        let warnings2 :=
          if bostonOnly.length = 0 then warnings ++ [amtrakReachableMsg] else warnings
        (bostonOnly, candidate, warnings2, invoked2)

/-- Embeds `fetchAmtrakAlerts` (local-transit source, line 772).  `candidates` is
`AMTRAK_FEED_CANDIDATES` (a possible env override followed by the default
feeds) paired with each candidate's proxied fetch outcome.  The fourth
component records the candidates actually fetched, in order. -/
def fetchAmtrakAlerts (candidates : List (String × AmtrakFetchOutcome))
    (warnings : List String) :
    List LocalTransitAlert × String × List String × List String :=
  amtrakLoop (String.intercalate " | " (candidates.map Prod.fst)) candidates warnings
    [] []

/-- Embeds `modeLabel` (local-transit source, line 177). -/
def modeLabel : TransitMode → String
  | .subway => "Subway"
  | .bus => "Bus"
  | .commuter_rail => "Commuter Rail"
  | .ferry => "Ferry"
  | .amtrak => "Amtrak"

/-- Embeds `buildSummary` (local-transit source, line 815). -/
def buildSummary (vehicles : List LocalTransitVehicle)
    (alerts : List LocalTransitAlert) : List LocalTransitSummary :=
  [TransitMode.subway, .bus, .commuter_rail, .ferry, .amtrak].map (fun mode =>
    let vehicleCount :=
      if mode = TransitMode.amtrak then 0
      else (vehicles.filter (fun v => v.mode == mode)).length
    let modeAlerts := alerts.filter (fun a => a.mode == mode)
    let hasSevere := modeAlerts.any
      (fun a => a.severity == AlertSeverity.severe || a.severity == AlertSeverity.major)
    let status :=
      if modeAlerts.length > 0 then
        if hasSevere then "Major service disruption"
        else
          toString modeAlerts.length ++ " active service alert" ++
            (if modeAlerts.length = 1 then "" else "s")
      else if mode ≠ TransitMode.amtrak ∧ vehicleCount = 0 then
        "No live vehicles reported"
      else if mode = TransitMode.amtrak then "No Boston-area alert published"
      else "Normal service"
    { mode := mode
      label := modeLabel mode
      vehicleCount := vehicleCount
      alertCount := modeAlerts.length
      status := status })

/-- Stable descending insertion by key (the V8 stable sort under the
comparator `(a, b) => keyOf b - keyOf a`). -/
def insertDesc (keyOf : LocalTransitAlert → Int) (x : LocalTransitAlert) :
    List LocalTransitAlert → List LocalTransitAlert
  | [] => [x]
  | y :: ys => if keyOf x > keyOf y then x :: y :: ys else y :: insertDesc keyOf x ys

/-- Stable most-recent-first sort of the combined alert list. -/
def sortByRecency (keyOf : LocalTransitAlert → Int) :
    List LocalTransitAlert → List LocalTransitAlert
  | [] => []
  | x :: xs => insertDesc keyOf x (sortByRecency keyOf xs)

/-- Modelled from the spec: the transit slot of the persistent Cache
Façade (same `./persistent-cache` interface as `BostonCache`). -/
def TransitCache : Type := List (String × LocalTransitPayload)

/-- Modelled from the spec: the transit cache write. -/
def setTransitCache (key : String) (payload : LocalTransitPayload)
    (cache : TransitCache) : TransitCache :=
  (key, payload) :: cache

/-- Embeds `refreshLocalTransit` (local-transit source, line 849) with effects
explicit: per-tier outcomes feed the embedded resolvers,
`linesResult` is the outcome of `fetchMbtaLines` (its returned lines plus
the warnings it appends; invoked only when vehicles exist), `dateParse`
models `Date.parse` on the ISO strings of the sort comparator, and
`apiKeyUsed` / `overrideConfigured` mirror the two env-derived flags.  The
three settled fetches run concurrently in JS and push to one shared
warning list; the model serializes those pushes in the
vehicles-alerts-amtrak order of the `Promise.allSettled` tuple.  The
embedded fetchers are total, so the defensive rejected-branch defaults of
the JS (which also yield empty lists plus a warning) have no model here. -/
def refreshLocalTransit (fetchedAt : String)
    (vPrimary vFallback vGtfs : Except String (List LocalTransitVehicle))
    (aPrimary aFallback aGtfs : Except String (List LocalTransitAlert))
    (amtrakCandidates : List (String × AmtrakFetchOutcome))
    (linesResult : Except String (List LocalTransitLine × List String))
    (dateParse : String → Int) (apiKeyUsed overrideConfigured : Bool)
    (cache : TransitCache) : LocalTransitPayload × TransitCache :=
  let v := fetchMbtaVehicles vPrimary vFallback vGtfs []
  let vehicles := v.1
  let a := fetchMbtaAlerts aPrimary aFallback aGtfs v.2.1
  let mbtaAlerts := a.1
  let am := fetchAmtrakAlerts amtrakCandidates a.2.1
  let amtrakAlerts := am.1
  let w3 := am.2.2.1
  let linesPair :=
    if vehicles.length > 0 then
      match linesResult with
      | .ok pair => (pair.1, w3 ++ pair.2)
      | .error e =>
        (([] : List LocalTransitLine),
          w3 ++ ["MBTA transit line refresh failed (" ++ e ++ ")."])
    else ([], w3)
  let keyOf := fun (al : LocalTransitAlert) =>
    match al.updatedAt with
    | some s => if s = "" then 0 else dateParse s
    | none => (0 : Int)
  let alerts := sortByRecency keyOf (mbtaAlerts ++ amtrakAlerts)
  let payload : LocalTransitPayload :=
    { vehicles := vehicles
      lines := linesPair.1
      alerts := alerts
      summaries := buildSummary vehicles alerts
      provenance :=
        { datasetId := "transitStatus"
          sourceUrl := "https://api-v3.mbta.com/vehicles"
          fetchedAt := fetchedAt
          recordCount := vehicles.length + alerts.length
          queryParams :=
            [("mbtaRouteTypes", .str "0,1,2,3,4"),
             ("bostonLat", .num ((423601 : Rat) / 10000)),
             ("bostonLon", .num ((-710589 : Rat) / 10000)),
             ("bostonRadiusKm", .num 45),
             ("mbtaApiKeyUsed", .boolean apiKeyUsed),
             ("mbtaAlertsEndpoint", .str "https://api-v3.mbta.com/alerts"),
             ("mbtaVehiclesGtfsFallback",
               .str "https://cdn.mbta.com/realtime/VehiclePositions_enhanced.json"),
             ("mbtaAlertsGtfsFallback",
               .str "https://cdn.mbta.com/realtime/Alerts_enhanced.json"),
             ("amtrakSource", .str am.2.1),
             ("amtrakFeedCandidates", .num amtrakCandidates.length),
             ("amtrakOverrideConfigured", .boolean overrideConfigured)]
          warnings := linesPair.2 } }
  (payload, setTransitCache "local-transit:status" payload cache)

/-- A minimal concrete vehicle record for concrete-input theorems. -/
def mkVehicle (i : String) : LocalTransitVehicle :=
  { id := i
    mode := .subway
    routeId := "Red"
    routeLabel := "Red Line"
    status := "IN_TRANSIT_TO"
    lat := 42
    lon := -71
    bearing := none
    updatedAt := none }

/-- A minimal concrete MBTA alert record for concrete-input theorems. -/
def mkAlert (i : String) : LocalTransitAlert :=
  { id := i
    source := .mbta
    mode := .subway
    title := "Shuttle buses replace service"
    description := ""
    severity := .minor
    updatedAt := none
    url := "https://www.mbta.com/alerts" }

/-- A concrete Amtrak alert whose text matches the Boston keyword set. -/
def bostonAmtrakAlert : LocalTransitAlert :=
  { id := "amtrak-0"
    source := .amtrak
    mode := .amtrak
    title := "Acela delays near South Station"
    description := "Expect residual delays."
    severity := .major
    updatedAt := none
    url := "https://www.amtrak.com/alert.html" }

/-- A geometry-less feature used as page filler in fetch scenarios. -/
def blankFeature : GeoFeature := ⟨none, none⟩

/-- The spec's paging scenario config: `pageSize = 2`, `maxRecords = 3`. -/
def scenarioConfig : ArcGisDatasetConfig :=
  { id := .policeDistricts
    sourceUrl := "https://example.test/FeatureServer/0/query"
    mode := .layer
    queryParams := standardArcParams
    pageSize := some 2
    maxRecords := some 3 }

/-- The spec's paging scenario upstream: three pages of two features. -/
def scenarioServer : Nat → Except String ArcPage :=
  fun k => if k < 3 then .ok ⟨[blankFeature, blankFeature], false⟩ else .ok ⟨[], false⟩

/-- An upstream whose every page request fails with a non-2xx status. -/
def failingServer : Nat → Except String ArcPage :=
  fun _ => .error "ArcGIS request failed (500)"

/-- The result the paging scenario evaluates to: three features (the cap),
the count-probe warning (no count was supplied) and the bounded warning. -/
def scenarioResult : ArcFetchResult :=
  { features := [blankFeature, blankFeature, blankFeature]
    warnings := [countWarnMsg, boundedMsg 3]
    queryParams := objMerge (objMerge standardArcParams standardArcParams)
      [("pageSize", .num 2)] }

/-- An upstream serving one short transfer-limited page, then a natural
end: page 0 has one feature with `exceededTransferLimit`, page 1 is
empty and unflagged. -/
def transferLimitServer : Nat → Except String ArcPage :=
  fun k => if k = 0 then .ok ⟨[blankFeature], true⟩ else .ok ⟨[], false⟩

/-- A minimal layer config with page size 2 and default page/record caps,
for the transfer-limit scenario. -/
def c8Config : ArcGisDatasetConfig :=
  { id := .policeDistricts
    sourceUrl := "https://example.test/FeatureServer/0/query"
    mode := .layer
    pageSize := some 2 }

/-- The loop state the transfer-limit scenario ends in: one feature, the
count-probe warning, the sticky flag set, two pages fetched. -/
def c8Run : PagedRun :=
  { features := [blankFeature]
    warnings := [countWarnMsg]
    sawExceededTransferLimit := true
    pageGuard := 2 }

/-- The fetch result of the transfer-limit scenario: the one-time
continuation warning appended exactly once. -/
def c8Result : ArcFetchResult :=
  { features := [blankFeature]
    warnings := [countWarnMsg, exceededMsg]
    queryParams := objMerge (objMerge standardArcParams []) [("pageSize", .num 2)] }

/-- The payload the fireHydrants stub refresh assembles (for a refresh
timestamped `"t"`). -/
def fireHydrantsStubPayload : BostonDatasetPayload :=
  { records := .layer []
    provenance :=
      { datasetId := .fireHydrants
        sourceUrl := "https://data.boston.gov/"
        fetchedAt := "t"
        recordCount := 0
        queryParams := []
        warnings := ["Stable public hydrant endpoint not resolved yet. Add Analyze Boston or BostonMaps FeatureServer URL in src/services/boston-open-data.ts (fireHydrants config)."] } }

/-!
Theorems.  General-purpose string and list helpers come first, then one
theorem per claim (with its witness or counterexample where required).
-/

/-- String append acts on the underlying character lists. -/
theorem strDataAppend (a b : String) : (a ++ b).data = a.data ++ b.data := rfl

/-- The head of an appended string is the head of its nonempty left part. -/
theorem strHeadAppend {a : String} (b : String) {c : Char}
    (h : a.data.head? = some c) : (a ++ b).data.head? = some c := by
  show (a.data ++ b.data).head? = some c
  cases hd : a.data with
  | nil => rw [hd] at h; exact Option.noConfusion h
  | cons x xs => rw [hd] at h; simpa using h

/-- Strings with distinct head characters differ. -/
theorem strNeOfHead {a b : String} {c d : Char} (ha : a.data.head? = some c)
    (hb : b.data.head? = some d) (hcd : c ≠ d) : a ≠ b := by
  intro e
  rw [e, hb] at ha
  exact hcd (Option.some.inj ha).symm

/-- A string with a head character is nonempty. -/
theorem strNeEmptyOfHead {a : String} {c : Char} (h : a.data.head? = some c) :
    a ≠ "" := by
  intro e
  rw [e] at h
  exact Option.noConfusion h

/-- Embeds `jsOr` is nonempty whenever its fallback is. -/
theorem jsOr_ne_empty {a b : String} (h : b ≠ "") : jsOr a b ≠ "" := by
  unfold jsOr
  split
  · exact h
  · assumption

/-- C2: the claim says a feature without usable point geometry and without
valid latitude/longitude property candidates normalizes to a null
location, never a (0,0) default.  The code violates this: for a feature
with a non-point geometry and an empty property map, `pickString` returns
`""`, JS `Number("")` is `0`, `Number.isFinite(0)` holds, and
`getFeatureCoordinates` yields latitude 0 and longitude 0 — the exact
(0,0) default the specification rules out. -/
theorem getFeatureCoordinates_zero_default :
    getFeatureCoordinates ⟨some .other, some []⟩ = (some 0, some 0) := by
  decide

/-- C4: the derived incident id is never empty, and normalization of equal
property mappings (same feature, same dataset tag) is deterministic. -/
theorem normalize_id_nonempty_deterministic (parse : String → Option Int)
    (feature : GeoFeature) (tag : DatasetTag) :
    (normalizeIncidentFeature parse feature tag).id ≠ "" ∧
      ∀ feature2, feature2 = feature →
        (normalizeIncidentFeature parse feature2 tag).id =
          (normalizeIncidentFeature parse feature tag).id := by
  constructor
  · show jsOr _ (jsOr _ _) ≠ ""
    apply jsOr_ne_empty
    apply jsOr_ne_empty
    cases tag
    · exact strNeEmptyOfHead
        (strHeadAppend _ (strHeadAppend _ (strHeadAppend _ (strHeadAppend _
          (strHeadAppend _ (strHeadAppend _ rfl))))))
    · exact strNeEmptyOfHead
        (strHeadAppend _ (strHeadAppend _ (strHeadAppend _ (strHeadAppend _
          (strHeadAppend _ (strHeadAppend _ rfl))))))
  · intro feature2 h
    rw [h]

/-- C4 witness: the theorem applied at a concrete feature and tag. -/
theorem normalize_id_nonempty_deterministic_witness :
    (normalizeIncidentFeature (fun _ => none) ⟨none, none⟩ .crime).id ≠ "" ∧
      (normalizeIncidentFeature (fun _ => none) ⟨none, none⟩ .crime).id =
        (normalizeIncidentFeature (fun _ => none) ⟨none, none⟩ .crime).id :=
  ⟨(normalize_id_nonempty_deterministic (fun _ => none) ⟨none, none⟩ .crime).1,
    (normalize_id_nonempty_deterministic (fun _ => none) ⟨none, none⟩ .crime).2 _ rfl⟩

/-- C3 counterexample: with the primary MBTA vehicle tier succeeding with
zero records and the fallback tier returning four, the result does carry
the fallback's four records, but the warning list contains zero (not
exactly one) zero-results notes for the primary tier: the early return on
a non-empty tier discards the accumulated attempt notes. -/
theorem c3_counterexample :
    (fetchMbtaVehicles (.ok []) (.ok [mkVehicle "a", mkVehicle "b", mkVehicle "c",
      mkVehicle "d"]) (.ok []) []).1.length = 4 ∧
    ((fetchMbtaVehicles (.ok []) (.ok [mkVehicle "a", mkVehicle "b", mkVehicle "c",
      mkVehicle "d"]) (.ok []) []).2.1).count (vehicleEmptyNote "filtered") = 0 := by
  constructor
  · rfl
  · rfl

/-- C3 amended: when the primary tier succeeds with zero usable records
and the fallback tier yields records, the result carries exactly the
fallback's records and the warning list is returned unchanged — the
zero-results note for the primary tier is recorded only when every tier
ends empty or failed (then aggregated into a single joined warning). -/
theorem fallback_records_without_primary_note :
    (∀ (fvs : List LocalTransitVehicle) (gtfs : Except String (List LocalTransitVehicle))
        (warn : List String), fvs ≠ [] →
        fetchMbtaVehicles (.ok []) (.ok fvs) gtfs warn =
          (fvs, warn, ["filtered", "fallback"])) ∧
    (∀ (fas : List LocalTransitAlert) (gtfs : Except String (List LocalTransitAlert))
        (warn : List String), fas ≠ [] →
        fetchMbtaAlerts (.ok []) (.ok fas) gtfs warn =
          (fas, warn, ["filtered", "fallback"])) := by
  constructor
  · intro fvs gtfs warn h
    simp [fetchMbtaVehicles, List.length_pos, h]
  · intro fas gtfs warn h
    simp [fetchMbtaAlerts, List.length_pos, h]

/-- C3 amended witness: the amended theorem applied at a concrete
fallback result. -/
theorem fallback_records_without_primary_note_witness :
    fetchMbtaVehicles (.ok []) (.ok [mkVehicle "w"]) (.ok []) [] =
      ([mkVehicle "w"], [], ["filtered", "fallback"]) ∧
    fetchMbtaAlerts (.ok []) (.ok [mkAlert "w"]) (.ok []) [] =
      ([mkAlert "w"], [], ["filtered", "fallback"]) :=
  ⟨fallback_records_without_primary_note.1 [mkVehicle "w"] (.ok []) []
      (List.cons_ne_nil _ _),
    fallback_records_without_primary_note.2 [mkAlert "w"] (.ok []) []
      (List.cons_ne_nil _ _)⟩

/-- C6: multi-tier resolutions short-circuit.  If the first MBTA vehicle
tier yields a non-empty record list, the resolver returns it with the
warning list untouched and the invocation trace shows only the first tier
was awaited; likewise, if the first Amtrak feed candidate parses to a
non-empty feed whose Boston filter keeps at least one alert, only that
candidate is fetched. -/
theorem tier_short_circuit :
    (∀ (vs : List LocalTransitVehicle)
        (fallback gtfs : Except String (List LocalTransitVehicle))
        (warn : List String), vs ≠ [] →
        fetchMbtaVehicles (.ok vs) fallback gtfs warn = (vs, warn, ["filtered"])) ∧
    (∀ (url : String) (all : List LocalTransitAlert)
        (rest : List (String × AmtrakFetchOutcome)) (warn : List String),
        all ≠ [] →
        all.filter (fun item => isBostonRelated (item.title ++ " " ++ item.description))
          ≠ [] →
        fetchAmtrakAlerts ((url, .fetched all) :: rest) warn =
          (all.filter (fun item => isBostonRelated (item.title ++ " " ++ item.description)),
            url, warn, [url])) := by
  constructor
  · intro vs fallback gtfs warn h
    simp [fetchMbtaVehicles, List.length_pos, h]
  · intro url all rest warn h hFilter
    simp [fetchAmtrakAlerts, amtrakLoop, List.length_eq_zero, h, hFilter]

/-- C6 witness: the short-circuit theorem applied at concrete inputs. -/
theorem tier_short_circuit_witness :
    fetchMbtaVehicles (.ok [mkVehicle "w"]) (.ok []) (.ok []) [] =
      ([mkVehicle "w"], [], ["filtered"]) ∧
    fetchAmtrakAlerts [("https://rss.test/feed.xml", .fetched [bostonAmtrakAlert])] [] =
      ([bostonAmtrakAlert], "https://rss.test/feed.xml", [],
        ["https://rss.test/feed.xml"]) := by
  refine ⟨tier_short_circuit.1 [mkVehicle "w"] (.ok []) (.ok []) []
      (List.cons_ne_nil _ _), ?_⟩
  have h := tier_short_circuit.2 "https://rss.test/feed.xml" [bostonAmtrakAlert] [] []
    (List.cons_ne_nil _ _) (by decide)
  simpa using h

/-- C7 counterexample: the claim says every numeric epoch met during date
extraction is scaled by magnitude (seconds vs. milliseconds).  The Boston
normalizer's `pickDateString` does no such detection: the seconds-scale
epoch 1700000000 (2023-11-14T22:13:20Z) is handed to `new Date` as
milliseconds and renders as a January 1970 timestamp, while the transit
extractor `toIsoDate` applies the magnitude rule and renders the 2023
timestamp. -/
theorem pickDate_ignores_epoch_magnitude :
    pickDateString (fun _ => none) [("occurred_on_date", .num 1700000000)]
        ["occurred_on_date"] = some "1970-01-20T16:13:20.000Z" ∧
    toIsoDate (fun _ => none) (some (.num 1700000000)) =
      some "2023-11-14T22:13:20.000Z" ∧
    ("1970-01-20T16:13:20.000Z" : String) ≠ "2023-11-14T22:13:20.000Z" := by
  refine ⟨by decide, by decide, by decide⟩

/-- C7 amended: the transit-side extractor `toIsoDate` detects seconds
vs. milliseconds by magnitude (an integer epoch below `10^12` is scaled by
1000 before rendering, a larger one is used as milliseconds directly),
while the Boston-side `pickDateString` interprets every numeric value as
epoch milliseconds with no magnitude detection. -/
theorem epoch_magnitude_detection :
    (∀ (parse : String → Option Int) (n : Int), n < 1000000000000 →
        (n * 1000).natAbs ≤ 8640000000000000 →
        toIsoDate parse (some (.num (n : Rat))) = some (isoRender (n * 1000))) ∧
    (∀ (parse : String → Option Int) (n : Int), ¬ n < 1000000000000 →
        n.natAbs ≤ 8640000000000000 →
        toIsoDate parse (some (.num (n : Rat))) = some (isoRender n)) ∧
    (∀ (parse : String → Option Int) (key : String) (n : Int),
        n.natAbs ≤ 8640000000000000 →
        pickDateString parse [(key, .num (n : Rat))] [key] = some (isoRender n)) := by
  refine ⟨?_, ?_, ?_⟩
  · intro parse n hlt hrange
    simp only [toIsoDate, ratLtNat, jsDateOfScaled, ratScaledAbsLe, Rat.num_intCast,
      Rat.den_intCast]
    rw [if_pos, if_pos]
    · simp
    · simpa using hrange
    · simpa using hlt
  · intro parse n hlt hrange
    simp only [toIsoDate, ratLtNat, jsDateOfNumber, jsDateOfScaled, ratScaledAbsLe,
      Rat.num_intCast, Rat.den_intCast]
    rw [if_neg, if_pos]
    · simp
    · simpa using hrange
    · simpa using hlt
  · intro parse key n hrange
    simp only [pickDateString, jsGet, List.lookup, beq_self_eq_true, jsDateOfNumber,
      jsDateOfScaled, ratScaledAbsLe, Rat.num_intCast, Rat.den_intCast]
    rw [if_pos]
    · simp
    · simpa using hrange

/-- C7 amended witness: the amended theorem applied at the epoch
1700000000 (seconds branch of `toIsoDate`) and at the epoch
1700000000000 (milliseconds branch and `pickDateString`). -/
theorem epoch_magnitude_detection_witness :
    toIsoDate (fun _ => none) (some (.num ((1700000000 : Int) : Rat))) =
      some (isoRender (1700000000 * 1000)) ∧
    toIsoDate (fun _ => none) (some (.num ((1700000000000 : Int) : Rat))) =
      some (isoRender 1700000000000) ∧
    pickDateString (fun _ => none) [("d", .num ((1700000000 : Int) : Rat))] ["d"] =
      some (isoRender 1700000000) :=
  ⟨epoch_magnitude_detection.1 (fun _ => none) 1700000000 (by decide) (by decide),
    epoch_magnitude_detection.2.1 (fun _ => none) 1700000000000 (by decide) (by decide),
    epoch_magnitude_detection.2.2 (fun _ => none) "d" 1700000000 (by decide)⟩

/-- A failing first page request aborts the paginated loop with that
error, provided the page budget allows any request at all. -/
theorem runPages_error_first {server : Nat → Except String ArcPage} {pageSize : Nat}
    {count maxRecords : Option Nat} {fuel reqIx : Nat} {acc : List GeoFeature}
    {sawExc : Bool} {warn : List String} {e : String} (hf : fuel ≠ 0)
    (hs : server reqIx = .error e) :
    runPages server pageSize count maxRecords fuel reqIx acc sawExc warn = .error e := by
  cases fuel with
  | zero => exact absurd rfl hf
  | succ n => simp [runPages, hs]

/-- A failing first page request aborts the whole paginated fetch. -/
theorem fetchArc_error_first {config : ArcGisDatasetConfig} {count : Option Nat}
    {server : Nat → Except String ArcPage} {e : String}
    (hf : config.maxPages.getD 100 ≠ 0) (hs : server 0 = .error e) :
    fetchArcGisFeatureCollection config count server = .error e := by
  unfold fetchArcGisFeatureCollection runPagesInit
  rw [runPages_error_first hf hs]

/-- Every configured dataset allows at least one page request. -/
theorem datasets_maxPages_pos (d : BostonDatasetId) :
    (DATASETS d).maxPages.getD 100 ≠ 0 := by
  cases d <;> decide

/-- C5: the refresh of a Boston dataset writes the cache exactly on the
success path — when the outcome is `.ok p` the cache gains precisely the
entry for that dataset's key, when the outcome is an error the cache is
returned untouched — and a failed page request (the fetch layer throws on
any non-2xx page response) makes the non-stub refresh propagate exactly
that failure. -/
theorem refresh_no_cache_write_on_failure (parse : String → Option Int)
    (dId : BostonDatasetId) (fetchedAt : String) (count : Option Nat)
    (server : Nat → Except String ArcPage) (cache : BostonCache) :
    (∀ p, (refreshBostonDataset parse dId fetchedAt count server cache).1 = .ok p →
        (refreshBostonDataset parse dId fetchedAt count server cache).2 =
          setPersistentCache (cacheKey dId) p cache) ∧
    (∀ e, (refreshBostonDataset parse dId fetchedAt count server cache).1 = .error e →
        (refreshBostonDataset parse dId fetchedAt count server cache).2 = cache) ∧
    (∀ e, (DATASETS dId).mode ≠ ArcMode.stub → server 0 = .error e →
        (refreshBostonDataset parse dId fetchedAt count server cache).1 = .error e) := by
  rcases hr : refreshBostonDataset parse dId fetchedAt count server cache with ⟨res, cache2⟩
  simp only [refreshBostonDataset] at hr
  split at hr
  · -- stub mode
    rename_i hmode
    cases hr
    refine ⟨?_, ?_, ?_⟩
    · intro p hp
      cases hp
      rfl
    · intro e hp
      exact absurd hp (by simp)
    · intro e hne _
      exact absurd hmode hne
  · -- incident mode
    rename_i hmode
    split at hr
    · rename_i e hfetch
      cases hr
      refine ⟨?_, ?_, ?_⟩
      · intro p hp
        exact absurd hp (by simp)
      · intro _ _
        rfl
      · intro e2 _ hs
        rw [fetchArc_error_first (datasets_maxPages_pos dId) hs] at hfetch
        cases hfetch
        rfl
    · rename_i res2 hfetch
      cases hr
      refine ⟨?_, ?_, ?_⟩
      · intro p hp
        cases hp
        rfl
      · intro e hp
        exact absurd hp (by simp)
      · intro e _ hs
        rw [fetchArc_error_first (datasets_maxPages_pos dId) hs] at hfetch
        exact Except.noConfusion hfetch
  · -- layer mode
    rename_i hmode
    split at hr
    · rename_i e hfetch
      cases hr
      refine ⟨?_, ?_, ?_⟩
      · intro p hp
        exact absurd hp (by simp)
      · intro _ _
        rfl
      · intro e2 _ hs
        rw [fetchArc_error_first (datasets_maxPages_pos dId) hs] at hfetch
        cases hfetch
        rfl
    · rename_i res2 hfetch
      cases hr
      refine ⟨?_, ?_, ?_⟩
      · intro p hp
        cases hp
        rfl
      · intro e hp
        exact absurd hp (by simp)
      · intro e _ hs
        rw [fetchArc_error_first (datasets_maxPages_pos dId) hs] at hfetch
        exact Except.noConfusion hfetch

/-- C5 witness: the theorem applied to the crime dataset against an
upstream whose first page request fails; the failure propagates and the
cache is unchanged. -/
theorem refresh_no_cache_write_on_failure_witness :
    (refreshBostonDataset (fun _ => none) .crimeIncidents "t" none failingServer []).1 =
      .error "ArcGIS request failed (500)" ∧
    (refreshBostonDataset (fun _ => none) .crimeIncidents "t" none failingServer []).2 =
      [] := by
  have h := refresh_no_cache_write_on_failure (fun _ => none) .crimeIncidents "t" none
    failingServer []
  have he := h.2.2 "ArcGIS request failed (500)" (by decide) rfl
  exact ⟨he, h.2.1 _ he⟩

/-- C10: the provenance record count equals the number of records the
payload actually contains — the incident-list length for incident-mode
datasets, the feature-collection length for layer-mode datasets (zero for
stubs, whose payload is an empty layer), and the vehicle count plus alert
count for the transit payload. -/
theorem recordCount_matches :
    (∀ (parse : String → Option Int) (dId : BostonDatasetId) (fetchedAt : String)
        (count : Option Nat) (server : Nat → Except String ArcPage)
        (cache : BostonCache) (p : BostonDatasetPayload),
        (refreshBostonDataset parse dId fetchedAt count server cache).1 = .ok p →
        p.provenance.recordCount =
          match p.records with
          | .incidents l => l.length
          | .layer fs => fs.length) ∧
    (∀ (dId : BostonDatasetId), (DATASETS dId).mode = ArcMode.stub →
        ∀ (parse : String → Option Int) (fetchedAt : String) (count : Option Nat)
          (server : Nat → Except String ArcPage) (cache : BostonCache)
          (p : BostonDatasetPayload),
        (refreshBostonDataset parse dId fetchedAt count server cache).1 = .ok p →
        p.provenance.recordCount = 0) ∧
    (∀ (fetchedAt : String) (vP vF vG : Except String (List LocalTransitVehicle))
        (aP aF aG : Except String (List LocalTransitAlert))
        (amc : List (String × AmtrakFetchOutcome))
        (lr : Except String (List LocalTransitLine × List String))
        (dp : String → Int) (aku oc : Bool) (cache : TransitCache),
        ((refreshLocalTransit fetchedAt vP vF vG aP aF aG amc lr dp aku oc
            cache).1).provenance.recordCount =
          ((refreshLocalTransit fetchedAt vP vF vG aP aF aG amc lr dp aku oc
            cache).1).vehicles.length +
          ((refreshLocalTransit fetchedAt vP vF vG aP aF aG amc lr dp aku oc
            cache).1).alerts.length) := by
  have boston : ∀ (parse : String → Option Int) (dId : BostonDatasetId)
      (fetchedAt : String) (count : Option Nat) (server : Nat → Except String ArcPage)
      (cache : BostonCache) (p : BostonDatasetPayload),
      (refreshBostonDataset parse dId fetchedAt count server cache).1 = .ok p →
      p.provenance.recordCount =
        match p.records with
        | .incidents l => l.length
        | .layer fs => fs.length := by
    intro parse dId fetchedAt count server cache p hp
    rcases hr : refreshBostonDataset parse dId fetchedAt count server cache with ⟨res, cache2⟩
    rw [hr] at hp
    simp only [refreshBostonDataset] at hr
    split at hr
    · cases hr
      cases hp
      rfl
    · split at hr
      · cases hr
        exact absurd hp (by simp)
      · cases hr
        cases hp
        rfl
    · split at hr
      · cases hr
        exact absurd hp (by simp)
      · cases hr
        cases hp
        rfl
  refine ⟨boston, ?_, ?_⟩
  · intro dId hmode parse fetchedAt count server cache p hp
    have h := boston parse dId fetchedAt count server cache p hp
    rcases hr : refreshBostonDataset parse dId fetchedAt count server cache with ⟨res, cache2⟩
    rw [hr] at hp
    simp only [refreshBostonDataset] at hr
    split at hr
    · cases hr
      cases hp
      rfl
    · rename_i hm
      rw [hmode] at hm
      exact absurd hm (by simp)
    · rename_i hm
      rw [hmode] at hm
      exact absurd hm (by simp)
  · intro fetchedAt vP vF vG aP aF aG amc lr dp aku oc cache
    rfl

/-- C10 witness: the theorem applied to the stub dataset (whose refresh
succeeds without network access) and to a concrete transit refresh. -/
theorem recordCount_matches_witness :
    (fireHydrantsStubPayload.provenance.recordCount =
      match fireHydrantsStubPayload.records with
      | .incidents l => l.length
      | .layer fs => fs.length) ∧
    fireHydrantsStubPayload.provenance.recordCount = 0 ∧
    ((refreshLocalTransit "t" (.ok []) (.ok []) (.ok []) (.ok []) (.ok []) (.ok [])
        [] (.ok ([], [])) (fun _ => 0) false false []).1).provenance.recordCount =
      ((refreshLocalTransit "t" (.ok []) (.ok []) (.ok []) (.ok []) (.ok []) (.ok [])
        [] (.ok ([], [])) (fun _ => 0) false false []).1).vehicles.length +
      ((refreshLocalTransit "t" (.ok []) (.ok []) (.ok []) (.ok []) (.ok []) (.ok [])
        [] (.ok ([], [])) (fun _ => 0) false false []).1).alerts.length :=
  ⟨recordCount_matches.1 (fun _ => none) .fireHydrants "t" none failingServer []
      fireHydrantsStubPayload rfl,
    recordCount_matches.2.1 .fireHydrants rfl (fun _ => none) "t" none failingServer []
      fireHydrantsStubPayload rfl,
    recordCount_matches.2.2 "t" (.ok []) (.ok []) (.ok []) (.ok []) (.ok []) (.ok [])
      [] (.ok ([], [])) (fun _ => 0) false false []⟩

/-- A string is empty exactly when its character list is. -/
theorem strEmptyIffDataNil (s : String) : s = "" ↔ s.data = [] := by
  constructor
  · intro h
    rw [h]
  · intro h
    cases s
    simp at h
    rw [h]

/-- A completed varint group consumed at least one character. -/
theorem readGroup_consumes {cs : List Char} {sh r v : Nat} {rest : List Char}
    (h : readGroup cs sh r = some (v, rest)) : rest.length < cs.length := by
  induction cs generalizing sh r with
  | nil => simp [readGroup] at h
  | cons c cs ih =>
    simp only [readGroup] at h
    split at h
    · exact Nat.lt_trans (ih h) (Nat.lt_succ_self _)
    · simp only [Option.some.injEq, Prod.mk.injEq] at h
      obtain ⟨-, h⟩ := h
      simp [← h]

/-- A varint group that completes within `cs` decodes identically when the
input is extended: the appended characters pass through untouched. -/
theorem readGroup_append {cs : List Char} (ex : List Char) {sh r v : Nat}
    {rest : List Char} (h : readGroup cs sh r = some (v, rest)) :
    readGroup (cs ++ ex) sh r = some (v, rest ++ ex) := by
  induction cs generalizing sh r with
  | nil => simp [readGroup] at h
  | cons c cs ih =>
    rw [List.cons_append]
    simp only [readGroup] at h ⊢
    split at h
    · rename_i hc
      rw [if_pos hc]
      exact ih h
    · rename_i hc
      rw [if_neg hc]
      simp only [Option.some.injEq, Prod.mk.injEq] at h
      obtain ⟨h1, h2⟩ := h
      rw [h1, h2]

/-- The decode loop stops when the first group runs out of characters. -/
theorem decodeLoop_nil_first {cs : List Char} {lat lon : Int}
    (h : readGroup cs 0 0 = none) : decodeLoop cs lat lon = [] := by
  rw [decodeLoop.eq_def]
  split
  · rfl
  · rename_i r1 cs1 heq
    rw [h] at heq
    exact Option.noConfusion heq

/-- The decode loop drops a trailing half-decoded pair: if the latitude
group completes but the longitude group runs out, the loop returns the
pairs decoded before it. -/
theorem decodeLoop_nil_second {cs cs1 : List Char} {lat lon : Int} {r1 : Nat}
    (h1 : readGroup cs 0 0 = some (r1, cs1)) (h2 : readGroup cs1 0 0 = none) :
    decodeLoop cs lat lon = [] := by
  rw [decodeLoop.eq_def]
  split
  · rfl
  · rename_i r1a cs1a heq
    rw [h1] at heq
    obtain ⟨rfl, rfl⟩ : r1 = r1a ∧ cs1 = cs1a := by
      have := Option.some.inj heq
      exact ⟨congrArg Prod.fst this, congrArg Prod.snd this⟩
    split
    · rfl
    · rename_i r2 cs2 heq2
      rw [h2] at heq2
      exact Option.noConfusion heq2

/-- The decode loop's cons equation when both groups complete. -/
theorem decodeLoop_cons {cs cs1 cs2 : List Char} {lat lon : Int} {r1 r2 : Nat}
    (h1 : readGroup cs 0 0 = some (r1, cs1)) (h2 : readGroup cs1 0 0 = some (r2, cs2)) :
    decodeLoop cs lat lon =
      (((lon + zigzagDecode r2 : Int) : Rat) / 100000,
        ((lat + zigzagDecode r1 : Int) : Rat) / 100000) ::
        decodeLoop cs2 (lat + zigzagDecode r1) (lon + zigzagDecode r2) := by
  rw [decodeLoop.eq_def]
  split
  · rename_i heq
    rw [h1] at heq
    exact Option.noConfusion heq
  · rename_i r1a cs1a heq
    rw [h1] at heq
    obtain ⟨rfl, rfl⟩ : r1 = r1a ∧ cs1 = cs1a := by
      have := Option.some.inj heq
      exact ⟨congrArg Prod.fst this, congrArg Prod.snd this⟩
    split
    · rename_i heq2
      rw [h2] at heq2
      exact Option.noConfusion heq2
    · rename_i r2a cs2a heq2
      rw [h2] at heq2
      obtain ⟨rfl, rfl⟩ : r2 = r2a ∧ cs2 = cs2a := by
        have := Option.some.inj heq2
        exact ⟨congrArg Prod.fst this, congrArg Prod.snd this⟩
      rfl

/-- Extending the character stream only extends the decoded sequence. -/
theorem decodeLoop_append : ∀ (n : Nat) (cs : List Char), cs.length ≤ n →
    ∀ (ex : List Char) (lat lon : Int), ∃ t,
      decodeLoop (cs ++ ex) lat lon = decodeLoop cs lat lon ++ t := by
  intro n
  induction n with
  | zero =>
    intro cs hlen ex lat lon
    have hnil : cs = [] := List.eq_nil_of_length_eq_zero (Nat.le_zero.mp hlen)
    subst hnil
    have h0 : readGroup ([] : List Char) 0 0 = none := rfl
    refine ⟨decodeLoop ex lat lon, ?_⟩
    rw [List.nil_append, decodeLoop_nil_first h0, List.nil_append]
  | succ n ih =>
    intro cs hlen ex lat lon
    rcases hg1 : readGroup cs 0 0 with _ | ⟨r1, cs1⟩
    · exact ⟨decodeLoop (cs ++ ex) lat lon, by rw [decodeLoop_nil_first hg1]; simp⟩
    · rcases hg2 : readGroup cs1 0 0 with _ | ⟨r2, cs2⟩
      · exact ⟨decodeLoop (cs ++ ex) lat lon,
          by rw [decodeLoop_nil_second hg1 hg2]; simp⟩
      · have ha1 := readGroup_append ex hg1
        have ha2 := readGroup_append ex hg2
        have hlen2 : cs2.length ≤ n := by
          have l1 := readGroup_consumes hg1
          have l2 := readGroup_consumes hg2
          omega
        obtain ⟨t, ht⟩ := ih cs2 hlen2 ex (lat + zigzagDecode r1) (lon + zigzagDecode r2)
        refine ⟨t, ?_⟩
        rw [decodeLoop_cons hg1 hg2, decodeLoop_cons ha1 ha2, ht]
        rfl

/-- C9: polyline decoding is prefix-safe.  Appending further characters to
an encoded string (equivalently: truncating an encoded string anywhere, at
a coordinate-group boundary or mid-group) only extends the decoded
coordinate sequence — the truncated decode is a prefix of the full one,
already-decoded points are never corrupted, and the decoder is a total
function (malformed input yields the successfully decoded prefix rather
than an exception). -/
theorem decodePolyline_prefix_safe (s₁ s₂ : String) :
    ∃ t, decodePolyline (s₁ ++ s₂) = decodePolyline s₁ ++ t := by
  by_cases h1 : s₁ = ""
  · subst h1
    refine ⟨decodePolyline ("" ++ s₂), ?_⟩
    have : decodePolyline "" = [] := by simp [decodePolyline]
    rw [this]
    simp
  · have hd1 : s₁.data ≠ [] := fun h => h1 ((strEmptyIffDataNil s₁).mpr h)
    have h12 : s₁ ++ s₂ ≠ "" := by
      intro h
      have := (strEmptyIffDataNil _).mp h
      rw [strDataAppend] at this
      exact hd1 (List.append_eq_nil.mp this).1
    obtain ⟨t, ht⟩ := decodeLoop_append s₁.data.length s₁.data (Nat.le_refl _)
      s₂.data 0 0
    refine ⟨t, ?_⟩
    rw [decodePolyline, decodePolyline, if_neg h1, if_neg h12]
    exact ht

/-- The bounded-fetch warning starts with `R`. -/
theorem boundedMsg_head (m : Nat) : (boundedMsg m).data.head? = some 'R' :=
  strHeadAppend _ (strHeadAppend _ rfl)

/-- The page-guard warning starts with `P`. -/
theorem cappedMsg_head (p : Nat) : (cappedMsg p).data.head? = some 'P' :=
  strHeadAppend _ (strHeadAppend _ rfl)

/-- The bounded-fetch warning differs from the count-probe warning. -/
theorem boundedMsg_ne_countWarn (m : Nat) : boundedMsg m ≠ countWarnMsg :=
  strNeOfHead (boundedMsg_head m) rfl (by decide)

/-- The bounded-fetch warning differs from the page-guard warning. -/
theorem boundedMsg_ne_capped (m p : Nat) : boundedMsg m ≠ cappedMsg p :=
  strNeOfHead (boundedMsg_head m) (cappedMsg_head p) (by decide)

/-- The bounded-fetch warning differs from the transfer-limit warning. -/
theorem boundedMsg_ne_exceeded (m : Nat) : boundedMsg m ≠ exceededMsg :=
  strNeOfHead (boundedMsg_head m) rfl (by decide)

/-- The transfer-limit warning differs from the count-probe warning. -/
theorem exceededMsg_ne_countWarn : exceededMsg ≠ countWarnMsg :=
  strNeOfHead rfl rfl (by decide)

/-- The transfer-limit warning differs from the bounded-fetch warning. -/
theorem exceededMsg_ne_bounded (m : Nat) : exceededMsg ≠ boundedMsg m :=
  strNeOfHead rfl (boundedMsg_head m) (by decide)

/-- The transfer-limit warning differs from the page-guard warning. -/
theorem exceededMsg_ne_capped (p : Nat) : exceededMsg ≠ cappedMsg p :=
  strNeOfHead rfl (cappedMsg_head p) (by decide)

/-- The bounded-fetch warning is never among the pre-loop warnings. -/
theorem boundedMsg_not_mem_initial (m : Nat) (count : Option Nat) :
    boundedMsg m ∉ initialWarnings count := by
  cases count <;> simp [initialWarnings, boundedMsg_ne_countWarn]

/-- Against a finite record cap, the loop accumulator never exceeds the
cap. -/
theorem runPages_length_le {server : Nat → Except String ArcPage} {pageSize : Nat}
    {count : Option Nat} {m : Nat} :
    ∀ (fuel reqIx : Nat) (acc : List GeoFeature) (sawExc : Bool) (warn : List String)
      (run : PagedRun),
      runPages server pageSize count (some m) fuel reqIx acc sawExc warn = .ok run →
      acc.length ≤ m → run.features.length ≤ m := by
  intro fuel
  induction fuel with
  | zero =>
    intro reqIx acc sawExc warn run hrun hacc
    simp only [runPages] at hrun
    cases hrun
    exact hacc
  | succ n ih =>
    intro reqIx acc sawExc warn run hrun hacc
    simp only [runPages] at hrun
    split at hrun
    · exact Except.noConfusion hrun
    · rename_i page hs
      have hacc2 : (acc ++ takeRemaining (some m) acc.length page.features).length ≤ m := by
        simp only [takeRemaining, List.length_append, List.length_take]
        omega
      split at hrun
      · cases hrun
        exact hacc2
      · split at hrun
        · cases hrun
          exact hacc2
        · split at hrun
          · cases hrun
            exact hacc2
          · exact ih _ _ _ _ _ hrun hacc2

/-- Against a finite record cap, the bounded warning is appended exactly
when the accumulated record count reaches the cap (provided it was not
already present and a positive page budget remains whenever the
accumulator is already full). -/
theorem runPages_bounded_mem_iff {server : Nat → Except String ArcPage} {pageSize : Nat}
    {count : Option Nat} {m : Nat} :
    ∀ (fuel reqIx : Nat) (acc : List GeoFeature) (sawExc : Bool) (warn : List String)
      (run : PagedRun),
      runPages server pageSize count (some m) fuel reqIx acc sawExc warn = .ok run →
      acc.length ≤ m → boundedMsg m ∉ warn → (fuel = 0 → acc.length < m) →
      (boundedMsg m ∈ run.warnings ↔ run.features.length = m) := by
  intro fuel
  induction fuel with
  | zero =>
    intro reqIx acc sawExc warn run hrun hacc hw hf
    simp only [runPages] at hrun
    cases hrun
    have hlt := hf rfl
    dsimp only
    constructor
    · intro hmem
      exact absurd hmem hw
    · intro hlen
      omega
  | succ n ih =>
    intro reqIx acc sawExc warn run hrun hacc hw hf
    simp only [runPages] at hrun
    split at hrun
    · exact Except.noConfusion hrun
    · rename_i page hs
      have hacc2 : (acc ++ takeRemaining (some m) acc.length page.features).length ≤ m := by
        simp only [takeRemaining, List.length_append, List.length_take]
        omega
      split at hrun
      · rename_i hcap
        simp only [capReached, ge_iff_le, decide_eq_true_eq] at hcap
        cases hrun
        dsimp only
        constructor
        · intro _
          omega
        · intro _
          exact List.mem_append_right _ (List.mem_singleton.mpr rfl)
      · rename_i hcap
        simp only [capReached, ge_iff_le, decide_eq_true_eq] at hcap
        split at hrun
        · cases hrun
          dsimp only
          constructor
          · intro hmem
            exact absurd hmem hw
          · intro hlen
            omega
        · split at hrun
          · cases hrun
            dsimp only
            constructor
            · intro hmem
              exact absurd hmem hw
            · intro hlen
              omega
          · exact ih _ _ _ _ _ hrun hacc2 hw (fun _ => by omega)

/-- C1: with a finite configured record cap `m`, a successful paginated
fetch returns at most `m` features, and (whenever the page budget is
positive, as it is for every configured dataset) the bounded warning is
present exactly when the accumulated record count reached the cap.  In the
spec's scenario — page size 2, cap 3, upstream pages of sizes [2,2,2] —
the fetch stops with exactly 3 records and the bounded warning. -/
theorem fetch_bounded_by_cap :
    (∀ (config : ArcGisDatasetConfig) (count : Option Nat)
        (server : Nat → Except String ArcPage) (m : Nat) (res : ArcFetchResult),
        config.maxRecords = some m →
        fetchArcGisFeatureCollection config count server = .ok res →
        res.features.length ≤ m ∧
          (1 ≤ config.maxPages.getD 100 →
            (boundedMsg m ∈ res.warnings ↔ res.features.length = m))) ∧
    (fetchArcGisFeatureCollection scenarioConfig none scenarioServer = .ok scenarioResult ∧
      scenarioResult.features.length = 3 ∧ boundedMsg 3 ∈ scenarioResult.warnings) := by
  constructor
  · intro config count server m res hm hfetch
    simp only [fetchArcGisFeatureCollection] at hfetch
    split at hfetch
    · exact Except.noConfusion hfetch
    · rename_i run hrp
      rw [runPagesInit, hm] at hrp
      cases hfetch
      have hlen := runPages_length_le _ _ _ _ _ _ hrp (by simp)
      refine ⟨hlen, ?_⟩
      intro hmp
      have hiff := runPages_bounded_mem_iff _ _ _ _ _ _ hrp (by simp)
        (boundedMsg_not_mem_initial m count) (fun h0 => by simp; omega)
      dsimp only
      rw [← hiff]
      split
      · split
        · simp [List.mem_append, boundedMsg_ne_capped, boundedMsg_ne_exceeded]
        · simp [List.mem_append, boundedMsg_ne_exceeded]
      · split
        · simp [List.mem_append, boundedMsg_ne_capped]
        · simp
  · refine ⟨by decide, by decide, by decide⟩

/-- C1 witness: the theorem's universal part applied at the scenario
config, upstream and result, all hypotheses discharged concretely. -/
theorem fetch_bounded_by_cap_witness :
    scenarioResult.features.length ≤ 3 ∧
      (boundedMsg 3 ∈ scenarioResult.warnings ↔ scenarioResult.features.length = 3) := by
  have h := fetch_bounded_by_cap.1 scenarioConfig none scenarioServer 3 scenarioResult rfl
    fetch_bounded_by_cap.2.1
  exact ⟨h.1, h.2 (by decide)⟩

/-- The loop never adds the transfer-limit warning itself: the count of
that warning is preserved (only the bounded warning is ever appended
inside the loop). -/
theorem runPages_exc_count {server : Nat → Except String ArcPage} {pageSize : Nat}
    {count maxRecords : Option Nat} :
    ∀ (fuel reqIx : Nat) (acc : List GeoFeature) (sawExc : Bool) (warn : List String)
      (run : PagedRun),
      runPages server pageSize count maxRecords fuel reqIx acc sawExc warn = .ok run →
      run.warnings.count exceededMsg = warn.count exceededMsg := by
  intro fuel
  induction fuel with
  | zero =>
    intro reqIx acc sawExc warn run hrun
    simp only [runPages] at hrun
    cases hrun
    rfl
  | succ n ih =>
    intro reqIx acc sawExc warn run hrun
    simp only [runPages] at hrun
    split at hrun
    · exact Except.noConfusion hrun
    · split at hrun
      · cases hrun
        dsimp only
        simp [List.count_append, List.count_cons, List.count_nil,
          Ne.symm (boundedMsg_ne_exceeded _)]
      · split at hrun
        · cases hrun
          rfl
        · split at hrun
          · cases hrun
            rfl
          · exact ih _ _ _ _ _ hrun

/-- The number of fetched pages only grows along the loop. -/
theorem runPages_pageGuard_le {server : Nat → Except String ArcPage} {pageSize : Nat}
    {count maxRecords : Option Nat} :
    ∀ (fuel reqIx : Nat) (acc : List GeoFeature) (sawExc : Bool) (warn : List String)
      (run : PagedRun),
      runPages server pageSize count maxRecords fuel reqIx acc sawExc warn = .ok run →
      reqIx ≤ run.pageGuard := by
  intro fuel
  induction fuel with
  | zero =>
    intro reqIx acc sawExc warn run hrun
    simp only [runPages] at hrun
    cases hrun
    exact Nat.le_refl _
  | succ n ih =>
    intro reqIx acc sawExc warn run hrun
    simp only [runPages] at hrun
    split at hrun
    · exact Except.noConfusion hrun
    · split at hrun
      · cases hrun
        exact Nat.le_succ _
      · split at hrun
        · cases hrun
          exact Nat.le_succ _
        · split at hrun
          · cases hrun
            exact Nat.le_succ _
          · exact Nat.le_of_succ_le (ih _ _ _ _ _ hrun)

/-- The sticky transfer-limit flag is set exactly when it started set or
some fetched page (at a request index the run actually reached) signaled
the condition. -/
theorem runPages_saw_iff {server : Nat → Except String ArcPage} {pageSize : Nat}
    {count maxRecords : Option Nat} :
    ∀ (fuel reqIx : Nat) (acc : List GeoFeature) (sawExc : Bool) (warn : List String)
      (run : PagedRun),
      runPages server pageSize count maxRecords fuel reqIx acc sawExc warn = .ok run →
      (run.sawExceededTransferLimit = true ↔
        sawExc = true ∨ ∃ k, reqIx ≤ k ∧ k < run.pageGuard ∧
          ∃ page, server k = .ok page ∧ page.exceededTransferLimit = true) := by
  intro fuel
  induction fuel with
  | zero =>
    intro reqIx acc sawExc warn run hrun
    simp only [runPages] at hrun
    cases hrun
    dsimp only
    constructor
    · intro h
      exact Or.inl h
    · rintro (h | ⟨k, hk1, hk2, -⟩)
      · exact h
      · omega
  | succ n ih =>
    intro reqIx acc sawExc warn run hrun
    simp only [runPages] at hrun
    split at hrun
    · exact Except.noConfusion hrun
    · rename_i page hs
      have stopCase : ∀ (w2 : List String),
          (PagedRun.mk (acc ++ takeRemaining maxRecords acc.length page.features) w2
              (sawExc || page.exceededTransferLimit)
              (reqIx + 1)).sawExceededTransferLimit = true ↔
            sawExc = true ∨ ∃ k, reqIx ≤ k ∧
              k < (PagedRun.mk (acc ++ takeRemaining maxRecords acc.length page.features)
                w2 (sawExc || page.exceededTransferLimit) (reqIx + 1)).pageGuard ∧
              ∃ page2, server k = .ok page2 ∧ page2.exceededTransferLimit = true := by
        intro w2
        dsimp only
        rw [Bool.or_eq_true]
        constructor
        · rintro (h | h)
          · exact Or.inl h
          · exact Or.inr ⟨reqIx, Nat.le_refl _, Nat.lt_succ_self _, page, hs, h⟩
        · rintro (h | ⟨k, hk1, hk2, page2, hs2, he2⟩)
          · exact Or.inl h
          · have hk : k = reqIx := by omega
            subst hk
            rw [hs] at hs2
            cases hs2
            exact Or.inr he2
      split at hrun
      · cases hrun
        exact stopCase _
      · split at hrun
        · cases hrun
          exact stopCase _
        · split at hrun
          · cases hrun
            exact stopCase _
          · have hpg := runPages_pageGuard_le _ _ _ _ _ _ hrun
            have ihh := ih _ _ _ _ _ hrun
            rw [ihh, Bool.or_eq_true]
            constructor
            · rintro ((h | h) | ⟨k, hk1, hk2, page2, hs2, he2⟩)
              · exact Or.inl h
              · exact Or.inr ⟨reqIx, Nat.le_refl _, by omega, page, hs, h⟩
              · exact Or.inr ⟨k, by omega, hk2, page2, hs2, he2⟩
            · rintro (h | ⟨k, hk1, hk2, page2, hs2, he2⟩)
              · exact Or.inl (Or.inl h)
              · by_cases hk : k = reqIx
                · subst hk
                  rw [hs] at hs2
                  cases hs2
                  exact Or.inl (Or.inr he2)
                · exact Or.inr ⟨k, by omega, hk2, page2, hs2, he2⟩

/-- C8: transfer-limit continuation.  First, a page that returns fewer
features than requested but carries the transfer-limit signal does not
terminate the paging loop when no other stop condition (record cap, known
total, page budget) applies: the loop proceeds to the next request with
the sticky flag set.  Second, on a successful fetch the continuation
warning appears in the warning list exactly once when any fetched page
signaled the condition — however many pages signaled it — and not at
all otherwise. -/
theorem transfer_limit_continuation :
    (∀ (server : Nat → Except String ArcPage) (pageSize : Nat)
        (count maxRecords : Option Nat) (fuel reqIx : Nat) (acc : List GeoFeature)
        (sawExc : Bool) (warn : List String) (page : ArcPage),
        server reqIx = .ok page →
        page.features.length < pageSize →
        page.exceededTransferLimit = true →
        capReached maxRecords
          (acc ++ takeRemaining maxRecords acc.length page.features).length = false →
        countReached count
          (acc ++ takeRemaining maxRecords acc.length page.features).length = false →
        runPages server pageSize count maxRecords (fuel + 1) reqIx acc sawExc warn =
          runPages server pageSize count maxRecords fuel (reqIx + 1)
            (acc ++ takeRemaining maxRecords acc.length page.features) true warn) ∧
    (∀ (config : ArcGisDatasetConfig) (count : Option Nat)
        (server : Nat → Except String ArcPage) (res : ArcFetchResult) (run : PagedRun),
        fetchArcGisFeatureCollection config count server = .ok res →
        runPagesInit config count server = .ok run →
        res.warnings.count exceededMsg =
          (if run.sawExceededTransferLimit then 1 else 0) ∧
        (run.sawExceededTransferLimit = true ↔
          ∃ k, k < run.pageGuard ∧ ∃ page, server k = .ok page ∧
            page.exceededTransferLimit = true)) := by
  constructor
  · intro server pageSize count maxRecords fuel reqIx acc sawExc warn page hs hshort hexc
      hcap hcount
    simp only [runPages, hs, hcap, hcount, hexc]
    simp
  · intro config count server res run hfetch hrun
    simp only [fetchArcGisFeatureCollection] at hfetch
    split at hfetch
    · exact Except.noConfusion hfetch
    · rename_i run2 hrp2
      rw [hrun] at hrp2
      cases hrp2
      cases hfetch
      rw [runPagesInit] at hrun
      have hcnt := runPages_exc_count _ _ _ _ _ _ hrun
      have h0 : (initialWarnings count).count exceededMsg = 0 := by
        cases count <;>
          simp [initialWarnings, List.count_cons, List.count_nil,
            exceededMsg_ne_countWarn]
      constructor
      · dsimp only
        split
        · split <;>
            simp [List.count_append, List.count_cons, List.count_nil, hcnt, h0,
              Ne.symm (exceededMsg_ne_capped _)]
        · split <;>
            simp [List.count_append, List.count_cons, List.count_nil, hcnt, h0,
              Ne.symm (exceededMsg_ne_capped _)]
      · have hiff := runPages_saw_iff _ _ _ _ _ _ hrun
        rw [hiff]
        simp

/-- C8 witness: both parts applied to the transfer-limit scenario — the
short flagged first page continues to a second request, and the resulting
warning list carries the continuation warning exactly once. -/
theorem transfer_limit_continuation_witness :
    runPages transferLimitServer 2 none none (99 + 1) 0 [] false [countWarnMsg] =
      runPages transferLimitServer 2 none none 99 1 [blankFeature] true [countWarnMsg] ∧
    c8Result.warnings.count exceededMsg =
      (if c8Run.sawExceededTransferLimit then 1 else 0) := by
  constructor
  · have h := transfer_limit_continuation.1 transferLimitServer 2 none none 99 0 []
      false [countWarnMsg] ⟨[blankFeature], true⟩ rfl (by decide) rfl rfl rfl
    simpa [takeRemaining] using h
  · exact (transfer_limit_continuation.2 c8Config none transferLimitServer c8Result
      c8Run (by decide) (by decide)).1

end WorldMonitor
